import Mathlib

/-!
Shallow embedding of the client-side alert subsystem of the siis web
trader (monitor/web/js/alerts.js): the two keyed alert collections kept
on `window` (`window.alerts` for fired/historical alerts and
`window.active_alerts` for pending ones), the push-event handlers, the
removal-request flow, the fetch/reconciliation handlers and the pure
formatting helpers.

JavaScript objects keyed by (non array-index) strings are modelled as
insertion-ordered association lists; setting a property replaces the
value in place when the key is present and appends otherwise, which is
exactly the enumeration-order behaviour of JS objects for the colon
containing keys this module uses.  Calls to `notify(...)` are collected
as values instead of being displayed.  DOM construction (the
presentation sink), sounds and timestamp formatting are out of scope per
the specification and are dropped from the embedding; `format_price` is
an injected pure function.
-/

set_option linter.unusedVariables false

/-- Model of a JavaScript object used as a string-keyed map, in property
insertion order. -/
abbrev JsMap (α : Type) := List (String × α)

/-- Model of the JS property write `obj[key] = value`: replace in place when
the key is present, append otherwise. -/
def jsUpsert {α : Type} : JsMap α → String → α → JsMap α
  | [], k, v => [(k, v)]
  | p :: rest, k, v => if p.1 == k then (k, v) :: rest else p :: jsUpsert rest k v

/-- Model of the JS property read `obj[key]`: the value at the key, or
undefined (`none`). -/
def jsGet {α : Type} (m : JsMap α) (k : String) : Option α :=
  (m.find? (fun p => p.1 == k)).map (fun p => p.2)

/-- Number of entries stored under a given key (1 or 0 for a well-formed JS
object). -/
def countKey {α : Type} (m : JsMap α) (k : String) : Nat :=
  (m.filter (fun p => p.1 == k)).length

/-- Well-formedness of the association-list model: keys are pairwise
distinct, as they always are in a JS object. -/
def NodupKeys {α : Type} (m : JsMap α) : Prop :=
  (m.map (fun p => p.1)).Nodup

instance {α : Type} (m : JsMap α) : Decidable (NodupKeys m) := by
  unfold NodupKeys; infer_instance

/-- Model of a call to notify({'message': ..., 'title': ..., 'type': ...}). -/
structure Notification where
  message : String
  title : String
  kind : String
deriving Repr, DecidableEq

/-- Fired (historical) alert record as consumed by on_strategy_signal_alert:
only the fields the core logic reads are modelled (the remaining fields are
consumed by DOM construction only, which is out of scope). -/
structure SignalAlert where
  id : Int
  marketId : String
  name : String
  symbol : String
  reason : String
  message : String
deriving Repr, DecidableEq

/-- Active (pending) alert record as consumed by on_strategy_create_alert and
the formatting helpers.  cancellation is the optional cancellation threshold;
none models an absent (undefined) field. -/
structure ActiveAlert where
  id : Int
  marketId : String
  name : String
  direction : Int
  priceSrc : Int
  price : Rat
  cancellation : Option Rat
  symbol : String
  message : String
deriving Repr, DecidableEq

/-- Entry of window.markets: the fields read by this module are the canonical
market identifier (market['market-id']) and the display symbol. -/
structure Market where
  marketId : String
  symbol : String
deriving Repr, DecidableEq

/-- Value of the property access `alert.direction` inside alert_name_format
and alert_cancellation_format.  In those functions the parameter is named
alert_data, so the bare identifier `alert` resolves to the browser global
window.alert (a function), whose direction property is undefined. -/
def window_alert_direction : Option Int := none

/-- JS comparison `a < b` where the left operand may be undefined:
undefined < b is false (NaN comparison). -/
def jsLtInt : Option Int → Int → Bool
  | none, _ => false
  | some a, b => decide (a < b)

/-- JS comparison `a > b` where the left operand may be undefined:
undefined > b is false (NaN comparison). -/
def jsGtRat : Option Rat → Rat → Bool
  | none, _ => false
  | some a, b => decide (b < a)

/-- Translation of price_src_to_str: switch on the numeric price source. -/
def price_src_to_str (price_src : Int) : String :=
  if price_src == 0 then "bid"
  else if price_src == 1 then "ask"
  else if price_src == 2 then "mid"
  else ""

/-- Translation of alert_name_format.  The second branch of the source reads
`alert.direction` (the global window.alert, not the alert_data parameter), so
its guard is jsLtInt window_alert_direction 0.  format_price is injected as
fmt. -/
def alert_name_format (alert_data : ActiveAlert) (market_id : String)
    (price_src : String) (fmt : String → Rat → String) : String :=
  if alert_data.name == "price-cross" then
    if 0 < alert_data.direction then
      "if " ++ price_src ++ " price goes above " ++ fmt market_id alert_data.price
    else if jsLtInt window_alert_direction 0 then
      "if " ++ price_src ++ " price goes below " ++ fmt market_id alert_data.price
    else "-"
  else "-"

/-- Translation of alert_cancellation_format.  The guard on the source's
second inner branch reads `alert.direction` (the global window.alert), as in
alert_name_format. -/
def alert_cancellation_format (alert_data : ActiveAlert) (market_id : String)
    (price_src : String) (fmt : String → Rat → String) : String :=
  if jsGtRat alert_data.cancellation 0 then
    if 0 < alert_data.direction then
      "if " ++ price_src ++ " price < " ++ fmt market_id (alert_data.cancellation.getD 0)
    else if jsLtInt window_alert_direction 0 then
      "if " ++ price_src ++ " price > " ++ fmt market_id (alert_data.cancellation.getD 0)
    else "never"
  else "never"

/-- Concrete injected price formatter used for the concrete evaluations
below. -/
def demoFmt (market_id : String) (p : Rat) : String :=
  market_id ++ "@" ++ toString p

/-- Long-direction price-cross alert with a cancellation threshold of 90. -/
def demoAlertLong : ActiveAlert :=
  { id := 1, marketId := "M1", name := "price-cross", direction := 1,
    priceSrc := 0, price := 100, cancellation := some 90,
    symbol := "EURUSD", message := "m" }

/-- Short-direction price-cross alert with a cancellation threshold of 90. -/
def demoAlertShort : ActiveAlert :=
  { demoAlertLong with direction := -1 }

/-- C3: for kind price-cross the long direction renders the documented
"goes above" text, but for direction -1 the source's else-if tests the
global window.alert's direction (undefined), so the result degrades to "-"
instead of the specified "goes below" text. -/
theorem alert_name_format_short_direction_dash :
    alert_name_format demoAlertLong "M1" "bid" demoFmt
        = "if bid price goes above M1@100"
    ∧ alert_name_format demoAlertShort "M1" "bid" demoFmt = "-" := by
  constructor <;> rfl

/-- C2: with a cancellation threshold set, the long direction renders the
documented "price <" text, but for direction -1 the source's else-if tests
the global window.alert's direction (undefined), so the result degrades to
"never" instead of the specified "price >" text. -/
theorem alert_cancellation_format_short_direction_never :
    alert_cancellation_format demoAlertLong "M1" "bid" demoFmt
        = "if bid price < M1@90"
    ∧ alert_cancellation_format demoAlertShort "M1" "bid" demoFmt = "never" := by
  constructor <;> rfl

/-- Translation of the store and notification effect of
on_strategy_signal_alert (fired-alert push handler): writes the alert at key
market_id ++ ":" ++ alert.id into window.alerts, notifies when do_notify, and
runs the "cleanup above 200 alerts" loop, whose body in the source is empty
(a @todo comment), so no entry is ever removed.  DOM row construction is out
of scope.  The display-only parameters alert_id and timestamp are dropped
(the key uses alert.id, not the alert_id argument). -/
def on_strategy_signal_alert (alerts : JsMap SignalAlert) (market_id : String)
    (alert : SignalAlert) (do_notify : Bool) : JsMap SignalAlert × List Notification :=
  let key := market_id ++ ":" ++ toString alert.id
  let notifs :=
    if do_notify then
      [{ message := alert.name ++ " " ++ alert.reason ++ " " ++ alert.symbol
            ++ " " ++ alert.message,
         title := "Strategy Alert", kind := "info" }]
    else []
  let alerts := jsUpsert alerts key alert
  -- if (Object.keys(window.alerts).length > 200) { for (alert_key in window.alerts) { } }
  -- the loop body only holds a @todo comment: no removal happens.
  (alerts, notifs)

/-- Translation of the store and notification effect of
on_strategy_create_alert (active-alert push handler): computes the condition
and cancellation texts, notifies when do_notify with the condition text, and
writes the alert at key market_id ++ ":" ++ alert_id into
window.active_alerts.  DOM row construction and button wiring are out of
scope; the display-only timestamp parameter is dropped. -/
def on_strategy_create_alert (active : JsMap ActiveAlert) (market_id : String)
    (alert_id : Int) (alert : ActiveAlert) (do_notify : Bool)
    (fmt : String → Rat → String) : JsMap ActiveAlert × List Notification :=
  let key := market_id ++ ":" ++ toString alert_id
  let price_src := price_src_to_str alert.priceSrc
  let condition_msg := alert_name_format alert market_id price_src fmt
  let cancellation_msg := alert_cancellation_format alert market_id price_src fmt
  let notifs :=
    if do_notify then
      [{ message := alert.name ++ " " ++ condition_msg ++ " " ++ alert.symbol
            ++ " " ++ alert.message,
         title := "Strategy Alert Created", kind := "info" }]
    else []
  (jsUpsert active key alert, notifs)

theorem jsGet_jsUpsert_self {α : Type} (m : JsMap α) (k : String) (v : α) :
    jsGet (jsUpsert m k v) k = some v := by
  induction m with
  | nil => simp [jsUpsert, jsGet, List.find?]
  | cons p rest ih =>
      by_cases h : p.1 == k
      · simp [jsUpsert, jsGet, h, List.find?]
      · simpa [jsUpsert, jsGet, h, List.find?] using ih

theorem countKey_jsUpsert {α : Type} (m : JsMap α) (k : String) (v : α)
    (h : NodupKeys m) : countKey (jsUpsert m k v) k = 1 := by
  induction m with
  | nil => simp [jsUpsert, countKey]
  | cons p rest ih =>
      rw [NodupKeys, List.map_cons, List.nodup_cons] at h
      by_cases hpk : p.1 == k
      · have hk : p.1 = k := by simpa using hpk
        have : countKey rest k = 0 := by
          rw [countKey, List.length_eq_zero, List.filter_eq_nil_iff]
          intro q hq hqk
          exact h.1 (by rw [← hk] at hqk; exact (List.mem_map.mpr
            ⟨q, hq, by simpa using hqk.symm⟩))
        simp only [jsUpsert, hpk, if_pos]
        simpa [countKey, List.filter] using this
      · simpa [jsUpsert, hpk, countKey, List.filter] using ih h.2

theorem mem_keys_jsUpsert {α : Type} (m : JsMap α) (k a : String) (v : α) :
    (a ∈ (jsUpsert m k v).map (fun p => p.1))
      ↔ a = k ∨ a ∈ m.map (fun p => p.1) := by
  induction m with
  | nil => simp [jsUpsert]
  | cons p rest ih =>
      by_cases hpk : p.1 == k
      · have hk : p.1 = k := by simpa using hpk
        rw [jsUpsert, if_pos hpk]
        simp only [List.map_cons, List.mem_cons, hk]
        tauto
      · rw [jsUpsert, if_neg hpk]
        simp only [List.map_cons, List.mem_cons, ih]
        tauto

theorem nodupKeys_jsUpsert {α : Type} (m : JsMap α) (k : String) (v : α)
    (h : NodupKeys m) : NodupKeys (jsUpsert m k v) := by
  induction m with
  | nil => simp [jsUpsert, NodupKeys]
  | cons p rest ih =>
      rw [NodupKeys, List.map_cons, List.nodup_cons] at h
      by_cases hpk : p.1 == k
      · have hk : p.1 = k := by simpa using hpk
        rw [jsUpsert, if_pos hpk, NodupKeys, List.map_cons, List.nodup_cons]
        exact ⟨by simpa [← hk] using h.1, h.2⟩
      · have hne : p.1 ≠ k := by simpa using hpk
        rw [jsUpsert, if_neg hpk, NodupKeys, List.map_cons, List.nodup_cons]
        refine ⟨fun hmem => ?_, ih h.2⟩
        rcases (mem_keys_jsUpsert rest k p.1 v).mp hmem with hcase | hcase
        · exact hne hcase
        · exact h.1 hcase

/-- C8: translation of applying the same AlertCreated push twice: one entry
remains under the key and it holds the pushed alert. -/
theorem create_alert_idempotent (active : JsMap ActiveAlert) (market_id : String)
    (alert_id : Int) (alert : ActiveAlert) (fmt : String → Rat → String)
    (h : NodupKeys active) :
    countKey
        (on_strategy_create_alert
          (on_strategy_create_alert active market_id alert_id alert true fmt).1
          market_id alert_id alert true fmt).1
        (market_id ++ ":" ++ toString alert_id) = 1
    ∧ jsGet
        (on_strategy_create_alert
          (on_strategy_create_alert active market_id alert_id alert true fmt).1
          market_id alert_id alert true fmt).1
        (market_id ++ ":" ++ toString alert_id) = some alert := by
  refine ⟨?_, ?_⟩
  · exact countKey_jsUpsert _ _ _ (nodupKeys_jsUpsert _ _ _ h)
  · exact jsGet_jsUpsert_self _ _ _

/-- Witness for create_alert_idempotent at the empty store. -/
theorem create_alert_idempotent_witness :
    countKey
        (on_strategy_create_alert
          (on_strategy_create_alert [] "M1" 1 demoAlertLong true demoFmt).1
          "M1" 1 demoAlertLong true demoFmt).1 ("M1" ++ ":" ++ toString (1 : Int)) = 1
    ∧ jsGet
        (on_strategy_create_alert
          (on_strategy_create_alert [] "M1" 1 demoAlertLong true demoFmt).1
          "M1" 1 demoAlertLong true demoFmt).1 ("M1" ++ ":" ++ toString (1 : Int))
        = some demoAlertLong :=
  create_alert_idempotent [] "M1" 1 demoAlertLong demoFmt (by decide)

/-- Fired-alert payload reused by every event of the flood below; all flood
entries share alert.id = 1 and vary the market id instead. -/
def floodAlert : SignalAlert :=
  { id := 1, marketId := "M", name := "price-cross", symbol := "EURUSD",
    reason := ">= 100", message := "m" }

/-- Sequence of n fired-alert push events applied to an initially empty
window.alerts, the i-th carrying market id toString i, so every event
stores under a fresh key (i ++ ":1"). -/
def signalFlood : Nat → JsMap SignalAlert
  | 0 => []
  | n + 1 => (on_strategy_signal_alert (signalFlood n) (toString n) floodAlert true).1

set_option maxRecDepth 4096 in
set_option maxHeartbeats 1000000 in
/-- C1: after 201 fired-alert push events with pairwise distinct keys the
historical collection holds 201 entries, above the documented cap of 200:
the source's cleanup loop body is empty (a @todo), so nothing is ever
evicted. -/
theorem historical_cap_exceeded :
    (signalFlood 201).length = 201 ∧ 200 < (signalFlood 201).length := by
  have h : (signalFlood 201).length = 201 := rfl
  exact ⟨h, by omega⟩

/-- Longest run of leading decimal digits, none when there is no digit
(parseInt's NaN). -/
def leadingDigits (l : List Char) : Option Nat :=
  let ds := l.takeWhile (fun c => c.isDigit)
  if ds.isEmpty then none
  else some (ds.foldl (fun acc c => acc * 10 + (c.toNat - 48)) 0)

/-- Hexadecimal digit test of JS parseInt's base-16 mode. -/
def isHexDigitJs (c : Char) : Bool :=
  c.isDigit || ('a' ≤ c && c ≤ 'f') || ('A' ≤ c && c ≤ 'F')

/-- Numeric value of a hexadecimal digit accepted by isHexDigitJs. -/
def hexDigitVal (c : Char) : Nat :=
  if c.isDigit then c.toNat - 48
  else if 'a' ≤ c then c.toNat - 87
  else c.toNat - 55

/-- Longest run of leading hexadecimal digits, none when there is no digit
(parseInt("0x") is NaN). -/
def leadingHexDigits (l : List Char) : Option Nat :=
  let ds := l.takeWhile isHexDigitJs
  if ds.isEmpty then none
  else some (ds.foldl (fun acc c => acc * 16 + hexDigitVal c) 0)

/-- Unsigned magnitude read by JS parseInt without a radix argument: a 0x or
0X prefix switches to base 16, anything else is read as leading decimal
digits (so "00x5" reads the decimal "00" and stops at the x). -/
def parseIntJsDigits : List Char → Option Nat
  | '0' :: 'x' :: rest => leadingHexDigits rest
  | '0' :: 'X' :: rest => leadingHexDigits rest
  | l => leadingDigits l

/-- Model of JS parseInt(s) called without a radix, as in on_remove_alert:
skips leading whitespace, reads an optional sign, then either a hexadecimal
literal after a 0x/0X prefix or the longest run of leading decimal digits;
none models NaN. -/
def parseIntJs (s : String) : Option Int :=
  match s.data.dropWhile (fun c => c.isWhitespace) with
  | '-' :: rest => (parseIntJsDigits rest).map (fun n => -(n : Int))
  | '+' :: rest => (parseIntJsDigits rest).map (fun n => (n : Int))
  | l => (parseIntJsDigits l).map (fun n => (n : Int))

/-- Accumulator pass of jsSplit over the character list. -/
def jsSplitAux (sep : Char) : List Char → List Char → List String
  | [], acc => [String.mk acc.reverse]
  | c :: rest, acc =>
      if c == sep then String.mk acc.reverse :: jsSplitAux sep rest []
      else jsSplitAux sep rest (c :: acc)

/-- Model of the JS string split s.split(sep) on a one-character separator:
splits at every occurrence, keeping empty pieces, and yields the whole
string when the separator does not occur. -/
def jsSplit (s : String) (sep : Char) : List String :=
  jsSplitAux sep s.data []

/-- JS truthiness of a numeric value that may be NaN: NaN and 0 are falsy. -/
def jsTruthyNum (a : Option Int) : Bool :=
  match a with
  | none => false
  | some n => n != 0

/-- Body of the DELETE strategy/alert request built by on_remove_alert. -/
structure RemovalPayload where
  marketId : String
  alertId : Int
  action : String
deriving Repr, DecidableEq

/-- Response payload consumed by on_remove_alert's done handler. -/
structure RemovalResponse where
  error : Bool
  messages : List String
deriving Repr, DecidableEq

/-- Both window collections of the module. -/
structure AlertState where
  active_alerts : JsMap ActiveAlert
  alerts : JsMap SignalAlert
deriving Repr, DecidableEq

/-- Observable effect of one on_remove_alert invocation: the early-return
value when one fires, the request payload when a request is sent, and the
notifications surfaced by the response handlers. -/
structure RemovalEffect where
  ret : Option Bool
  request : Option RemovalPayload
  notifs : List Notification
deriving Repr, DecidableEq

/-- Translation of on_remove_alert's done handler: on an error payload one
error notification per entry of data.messages (for-in over the array gives
its indices, and data.messages[msg] the entries), otherwise a single success
notification. -/
def on_remove_alert_done (data : RemovalResponse) : List Notification :=
  if data.error then
    data.messages.map (fun m => { message := m, title := "Remove Alert", kind := "error" })
  else
    [{ message := "Success", title := "Remove Alert", kind := "success" }]

/-- Translation of on_remove_alert's fail handler: it iterates
for (let msg in data.messages) over the jqXHR object, which has no messages
property, so the for-in loop runs zero times and nothing is notified. -/
def on_remove_alert_fail : List Notification := []

/-- Translation of on_remove_alert (user removal request).  The window state
is threaded through to record that no branch writes either collection; the
outcome of the asynchronous DELETE request is an explicit argument consumed
by the done/fail handlers (Except.error models a transport failure). -/
def on_remove_alert (markets : JsMap Market) (st : AlertState) (key : String)
    (response : Except Unit RemovalResponse) : AlertState × RemovalEffect :=
  let parts := jsSplit key ':'
  if parts.length != 2 then
    (st, { ret := some false, request := none, notifs := [] })
  else
    let market_id := parts.getD 0 ""
    let alert_id := parseIntJs (parts.getD 1 "")
    let market := jsGet markets market_id
    if market_id ≠ "" ∧ market.isSome ∧ jsTruthyNum alert_id then
      let payload : RemovalPayload :=
        { marketId := (market.getD { marketId := "", symbol := "" }).marketId,
          alertId := alert_id.getD 0, action := "del-alert" }
      match response with
      | .ok data => (st, { ret := none, request := some payload,
                           notifs := on_remove_alert_done data })
      | .error _ => (st, { ret := none, request := some payload,
                           notifs := on_remove_alert_fail })
    else
      (st, { ret := none, request := none, notifs := [] })

/-- Markets table with a single known market M1 whose canonical id is M1C. -/
def demoMarkets : JsMap Market := [("M1", { marketId := "M1C", symbol := "EURUSD" })]

/-- Empty window state used by the concrete evaluations. -/
def demoState : AlertState := { active_alerts := [], alerts := [] }

/-- C4 counterexample: the key "M1:-5" does not decompose into a positive
integer alert id (parseInt gives -5), yet on_remove_alert sends the DELETE
request for it, because the source only tests the parsed id for JS
truthiness (nonzero, non-NaN). -/
theorem remove_alert_negative_id_sends_request :
    parseIntJs "-5" = some (-5)
    ∧ (on_remove_alert demoMarkets demoState "M1:-5"
        (.ok { error := false, messages := [] })).2.request
      = some { marketId := "M1C", alertId := -5, action := "del-alert" } := by
  constructor <;> decide

/-- C4 amended: a key that does not split on the colon into exactly two
parts is rejected locally (return false, no request, no notification); a
two-part key whose market part is empty or unknown, or whose id part
parses to 0 or NaN, is a silent no-op (no request, no notification, no
explicit return value); any other two-part key sends the request. -/
theorem remove_alert_local_validation (markets : JsMap Market) (st : AlertState)
    (key : String) (resp : Except Unit RemovalResponse) :
    ((jsSplit key ':').length ≠ 2 →
      on_remove_alert markets st key resp
        = (st, { ret := some false, request := none, notifs := [] }))
    ∧ (∀ mid ids, jsSplit key ':' = [mid, ids] →
        ¬ (mid ≠ "" ∧ (jsGet markets mid).isSome ∧ jsTruthyNum (parseIntJs ids)) →
        on_remove_alert markets st key resp
          = (st, { ret := none, request := none, notifs := [] }))
    ∧ (∀ mid ids, jsSplit key ':' = [mid, ids] →
        (mid ≠ "" ∧ (jsGet markets mid).isSome ∧ jsTruthyNum (parseIntJs ids)) →
        (on_remove_alert markets st key resp).2.request ≠ none) := by
  refine ⟨?_, ?_, ?_⟩
  · intro h
    rw [on_remove_alert, if_pos (by simpa using h)]
  · intro mid ids hsplit hfail
    rw [on_remove_alert, if_neg (by simp [hsplit]), hsplit]
    simp only [List.getD]
    rw [if_neg (by simpa [hsplit] using hfail)]
  · intro mid ids hsplit hok
    rw [on_remove_alert, if_neg (by simp [hsplit]), hsplit]
    simp only [List.getD]
    rw [if_pos (by simpa [hsplit] using hok)]
    cases resp <;> simp

/-- Witness for remove_alert_local_validation: the colon-free key "EURUSD"
is rejected locally with return value false; the key "M1:0", whose id part
parses to 0, is a silent no-op; the keys "M1:7" and "M1:0x10" (parseInt
without a radix reads the hexadecimal id 16) send a request. -/
theorem remove_alert_local_validation_witness :
    on_remove_alert demoMarkets demoState "EURUSD"
        (.ok { error := false, messages := [] })
      = (demoState, { ret := some false, request := none, notifs := [] })
    ∧ on_remove_alert demoMarkets demoState "M1:0"
        (.ok { error := false, messages := [] })
      = (demoState, { ret := none, request := none, notifs := [] })
    ∧ (on_remove_alert demoMarkets demoState "M1:7"
        (.ok { error := false, messages := [] })).2.request ≠ none
    ∧ (on_remove_alert demoMarkets demoState "M1:0x10"
        (.ok { error := false, messages := [] })).2.request ≠ none :=
  ⟨(remove_alert_local_validation demoMarkets demoState "EURUSD"
      (.ok { error := false, messages := [] })).1 (by decide),
   (remove_alert_local_validation demoMarkets demoState "M1:0"
      (.ok { error := false, messages := [] })).2.1 "M1" "0" (by decide) (by decide),
   (remove_alert_local_validation demoMarkets demoState "M1:7"
      (.ok { error := false, messages := [] })).2.2 "M1" "7" (by decide) (by decide),
   (remove_alert_local_validation demoMarkets demoState "M1:0x10"
      (.ok { error := false, messages := [] })).2.2 "M1" "0x10" (by decide) (by decide)⟩

/-- C5: on_remove_alert leaves both window collections unchanged for every
key and every request outcome; removal of the entry is driven by the push
event or a later refresh, never by this handler. -/
theorem remove_alert_frame (markets : JsMap Market) (st : AlertState)
    (key : String) (resp : Except Unit RemovalResponse) :
    (on_remove_alert markets st key resp).1 = st := by
  rw [on_remove_alert]
  split
  · rfl
  · split <;> (dsimp only; split <;> rfl)

/-- C6: the done handler of the removal request surfaces one error
notification per entry of the response's messages list (carrying exactly
those messages) when error is set, and a single success notification
otherwise. -/
theorem remove_alert_notification_policy (data : RemovalResponse) :
    (data.error = true →
      (on_remove_alert_done data).length = data.messages.length
      ∧ (on_remove_alert_done data).map (fun n => n.message) = data.messages
      ∧ ∀ n ∈ on_remove_alert_done data, n.kind = "error")
    ∧ (data.error = false →
      on_remove_alert_done data
        = [{ message := "Success", title := "Remove Alert", kind := "success" }]) := by
  constructor
  · intro h
    refine ⟨by simp [on_remove_alert_done, h], ?_, ?_⟩
    · rw [on_remove_alert_done]
      simp only [h, if_true, List.map_map]
      simp [Function.comp_def]
    · intro n hn
      rcases List.mem_map.mp (by simpa [on_remove_alert_done, h] using hn) with ⟨m, hm, hmn⟩
      rw [← hmn]
  · intro h
    simp [on_remove_alert_done, h]

/-- Witness for remove_alert_notification_policy at a two-message error
response and at a success response. -/
theorem remove_alert_notification_policy_witness :
    ((on_remove_alert_done { error := true, messages := ["a", "b"] }).length = 2
      ∧ (on_remove_alert_done { error := true, messages := ["a", "b"] }).map
          (fun n => n.message) = ["a", "b"])
    ∧ on_remove_alert_done { error := false, messages := [] }
        = [{ message := "Success", title := "Remove Alert", kind := "success" }] := by
  constructor
  · have h := (remove_alert_notification_policy
      { error := true, messages := ["a", "b"] }).1 rfl
    exact ⟨h.1, h.2.1⟩
  · exact (remove_alert_notification_policy { error := false, messages := [] }).2 rfl

/-- JSON body of a fetch response: the data field may be absent or null. -/
structure FetchResponse (α : Type) where
  data : Option (List α)

/-- Translation of the done handler of the active-alert fetch in
fetch_alerts: window.active_alerts is reset to {} first; when the data field
is missing the handler returns at once, otherwise every fetched alert is
stored and on_strategy_create_alert is invoked with do_notify = false (so the
bulk load emits no notification). -/
def fetch_active_done (result : FetchResponse ActiveAlert)
    (fmt : String → Rat → String) : JsMap ActiveAlert × List Notification :=
  let st : JsMap ActiveAlert := []
  match result.data with
  | none => (st, [])
  | some alerts =>
      (alerts.foldl (fun acc alert =>
          let acc := jsUpsert acc (alert.marketId ++ ":" ++ toString alert.id) alert
          -- initial add: on_strategy_create_alert(..., false) repeats the same
          -- store write and, with do_notify = false, emits no notification.
          (on_strategy_create_alert acc alert.marketId alert.id alert false fmt).1)
        st,
       [])

/-- Translation of the active-alert fetch of fetch_alerts with its outcome
made explicit: Except.error models a transport/protocol failure, handled by
the fail callback (one error notification, collection untouched). -/
def fetch_active_apply (active : JsMap ActiveAlert)
    (outcome : Except Unit (FetchResponse ActiveAlert))
    (fmt : String → Rat → String) : JsMap ActiveAlert × List Notification :=
  match outcome with
  | .ok result => fetch_active_done result fmt
  | .error _ =>
      (active,
       [{ message := "Unable to obtains actives alerts !",
          title := "fetching\"", kind := "error" }])

/-- Translation of the done handler of the historical-alert fetch in
fetch_alerts: window.alerts is reset to {} first; when the data field is
missing the handler returns at once, otherwise every fetched alert is stored
and on_strategy_signal_alert is invoked with do_notify = false. -/
def fetch_historical_done (result : FetchResponse SignalAlert) :
    JsMap SignalAlert × List Notification :=
  let st : JsMap SignalAlert := []
  match result.data with
  | none => (st, [])
  | some alerts =>
      (alerts.foldl (fun acc alert =>
          let acc := jsUpsert acc (alert.marketId ++ ":" ++ toString alert.id) alert
          (on_strategy_signal_alert acc alert.marketId alert false).1)
        st,
       [])

/-- Translation of the historical-alert fetch of fetch_alerts with its
outcome made explicit. -/
def fetch_historical_apply (hist : JsMap SignalAlert)
    (outcome : Except Unit (FetchResponse SignalAlert)) :
    JsMap SignalAlert × List Notification :=
  match outcome with
  | .ok result => fetch_historical_done result
  | .error _ =>
      (hist,
       [{ message := "Unable to obtains historical alerts !",
          title := "fetching\"", kind := "error" }])

/-- C7: a transport/protocol failure of either refresh leaves the
corresponding existing collection untouched and surfaces exactly one error
notification. -/
theorem fetch_failure_preserves_collections (active : JsMap ActiveAlert)
    (hist : JsMap SignalAlert) (fmt : String → Rat → String) :
    (fetch_active_apply active (.error ()) fmt).1 = active
    ∧ (fetch_active_apply active (.error ()) fmt).2.length = 1
    ∧ (fetch_active_apply active (.error ()) fmt).2.map (fun n => n.kind) = ["error"]
    ∧ (fetch_historical_apply hist (.error ())).1 = hist
    ∧ (fetch_historical_apply hist (.error ())).2.length = 1
    ∧ (fetch_historical_apply hist (.error ())).2.map (fun n => n.kind) = ["error"] := by
  refine ⟨rfl, rfl, rfl, rfl, rfl, rfl⟩

/-- C10: a successful refresh response without a data array resets the
corresponding collection to empty (the collection is cleared before the data
field is inspected), for any prior contents. -/
theorem fetch_missing_data_resets_collections (active : JsMap ActiveAlert)
    (hist : JsMap SignalAlert) (fmt : String → Rat → String) :
    (fetch_active_apply active (.ok { data := none }) fmt).1 = []
    ∧ (fetch_active_apply active (.ok { data := none }) fmt).2 = []
    ∧ (fetch_historical_apply hist (.ok { data := none })).1 = []
    ∧ (fetch_historical_apply hist (.ok { data := none })).2 = [] := by
  refine ⟨rfl, rfl, rfl, rfl⟩

/-- Modelled from the spec: compute_price_pct, the signed price-percentage
helper called by on_details_alert, is defined in another file of the
repository that is not part of the reviewed sources; per the spec it returns
(price / basePrice - 1) * direction, the direction being the +1 or -1 sign the
caller computes from the alert's direction. -/
def compute_price_pct (price base direction : Rat) : Rat :=
  (price / base - 1) * direction

/-- Model of JS Number.prototype.toFixed(2) on exact rationals: format the
sign, then the absolute value rounded to the nearest hundredth (ties toward
the larger value, per the ECMAScript algorithm) with exactly two decimal
digits.  The rounded hundredths count of num/den is
(natAbs num * 200 + den) / (2 * den), computed on the numerator and
denominator directly so that the definition evaluates by kernel
reduction. -/
def toFixed2 (q : Rat) : String :=
  let sgn := if q.num < 0 then "-" else ""
  let n := (q.num.natAbs * 200 + q.den) / (2 * q.den)
  sgn ++ toString (n / 100) ++ "."
    ++ (if n % 100 < 10 then "0" else "") ++ toString (n % 100)

/-- Translation of the display expression of on_details_alert:
(cancellation_price_rate * 100).toFixed(2) + '%'. -/
def cancellation_price_pct (rate : Rat) : String :=
  toFixed2 (rate * 100) ++ "%"

/-- C9: the signed price percentage is (price / base - 1) times the direction
sign; at cancellationPrice 95, entryPrice 100, direction +1 it is -0.05 and
is displayed as "-5.00%". -/
theorem signed_price_percent_spec :
    (∀ price base direction : Rat,
      compute_price_pct price base direction = (price / base - 1) * direction)
    ∧ compute_price_pct 95 100 1 = -(5 / 100)
    ∧ cancellation_price_pct (compute_price_pct 95 100 1) = "-5.00%" := by
  refine ⟨fun _ _ _ => rfl, by norm_num [compute_price_pct], ?_⟩
  have h : compute_price_pct 95 100 1 * 100 = -5 := by norm_num [compute_price_pct]
  rw [cancellation_price_pct, h]
  decide
